import Mathlib

/-!
Verification of the nplpi MSF time-signal decoder.

Shallow embedding of the C sources (`src/decode_time.c`, `src/mainloop.c`,
the unnamed input/framer source and the `decode_time.h` header) as Lean
definitions, with theorems settling the stated claims about them.

Conventions:
* the 61-entry bit buffer `int buffer[]` is modelled as a total map
  `Nat → Nat` (the program only ever stores the symbol values 0..4);
* C `unsigned` counters are `Nat` (an explicit `% 2 ^ 32` is written where
  a wrap is reachable), C `int` fields that can be negative are `Int`;
* the `static` variables of each translation unit are threaded through
  explicit state records;
* `calendar.c` is not part of the given sources, so its functions are
  modelled from the specification (they carry `Modelled from the spec:`
  doc comments).
-/

set_option maxHeartbeats 1000000
set_option linter.unusedVariables false

namespace Nplpi

/-- Minute length state (`enum eDT_length`, decode_time.h). -/
inductive eDT_length where
  | emin_ok
  | emin_short
  | emin_long
deriving DecidableEq, Repr

export eDT_length (emin_ok emin_short emin_long)

/-- State of the decoded date/time values (`enum eDT_tval`, decode_time.h). -/
inductive eDT_tval where
  | eval_ok
  | eval_bcd
  | eval_parity
  | eval_jump
deriving DecidableEq, Repr

export eDT_tval (eval_ok eval_bcd eval_parity eval_jump)

/-- Daylight saving time state (`enum eDT_DST`, decode_time.h). -/
inductive eDT_DST where
  | eDST_ok
  | eDST_jump
  | eDST_done
deriving DecidableEq, Repr

export eDT_DST (eDST_ok eDST_jump eDST_done)

/-- Leap second state (`enum eDT_leapsecond`, decode_time.h). -/
inductive eDT_leapsecond where
  | els_none
  | els_one
  | els_done
deriving DecidableEq, Repr

export eDT_leapsecond (els_none els_one els_done)

/-- `struct DT_result` (decode_time.h): all decoded information of a minute. -/
structure DT_result where
  bit0_ok : Bool
  bit52_ok : Bool
  bit59_ok : Bool
  minute_length : eDT_length
  minute_status : eDT_tval
  hour_status : eDT_tval
  mday_status : eDT_tval
  wday_status : eDT_tval
  month_status : eDT_tval
  year_status : eDT_tval
  dst_status : eDT_DST
  leapsecond_status : eDT_leapsecond
  dst_announce : Bool
deriving DecidableEq, Repr

/-- The fields of C `struct tm` that the decoder uses.  The program stores
the month as 1..12 and the full year (e.g. 2019) in `tm_year`. -/
structure Tm where
  tm_min : Int := 0
  tm_hour : Int := 0
  tm_mday : Int := 0
  tm_mon : Int := 0
  tm_year : Int := 0
  tm_wday : Int := 0
  tm_isdst : Int := 0
deriving DecidableEq, Repr

/-- `getpar` (decode_time.c lines 15-25): even/odd parity over a field.
`par` accumulates the A bits (`buffer[i] & 1`) of `start..stop` and the
shifted value `buffer[parity] >> 1` of the parity position, and the
function returns whether `par` is odd (`(par & 1) == 1`). -/
def getpar (buffer : Nat → Nat) (start stop parity : Nat) : Bool :=
  let par := ((List.range' start (stop + 1 - start)).map fun i => buffer i &&& 1).sum
    + (buffer parity >>> 1)
  (par &&& 1) == 1

/-- The parity count exactly as claim C1 words it: the number of set A-bits
(`bit & 1`) among `buffer[start..stop]` plus the B-bit (`bit & 2`, counted
as 0 or 1) of `buffer[parity]`.  This is the claim-side definition, to be
compared with `getpar` above. -/
def spec_parity_count (buffer : Nat → Nat) (start stop parity : Nat) : Nat :=
  ((List.range' start (stop + 1 - start)).map fun i => buffer i &&& 1).sum
    + (buffer parity &&& 2) / 2

/-- `getbcd` loop body (decode_time.c lines 30-41), running the loop index
from `start + k - 1` down to `start`; the early `return 100` when the
units group exceeds 9 aborts the recursion. -/
def getbcdGo (buffer : Nat → Nat) (start : Nat) : Nat → Nat → Nat → Nat
  | 0, _, val => val
  | k + 1, mul, val =>
    let val := val + mul * (buffer (start + k) &&& 1)
    let mul := mul * 2
    if mul = 16 then
      if val > 9 then 100 else getbcdGo buffer start k 10 val
    else getbcdGo buffer start k mul val

/-- `getbcd` (decode_time.c lines 27-43): BCD decode of
`buffer[start..stop]`, most significant bit first. -/
def getbcd (buffer : Nat → Nat) (start stop : Nat) : Nat :=
  getbcdGo buffer start (stop + 1 - start) 1 0

/-- Buffer for claim C4: a year field (bits 17..24) whose tens nibble is
`1111` (value 15 > 9) while the units nibble is `0000`. -/
def bufC4 : Nat → Nat := fun i => if 17 ≤ i ∧ i ≤ 20 then 1 else 0

/-- Witness input for `C4_getbcd_units`: units nibble `1111` at bits
21..24 of a year field. -/
def bufC4w : Nat → Nat := fun i => if 21 ≤ i ∧ i ≤ 24 then 1 else 0

/-! ## The calendar, modelled from the spec

`calendar.c` is not among the given sources; only its header contract is
described by the specification (§4.1), from which the following
definitions are modelled. -/

/-- Modelled from the spec (§4.1, §3): the missing `calendar.c`.  Day of
week of a full Gregorian date by Zeller's congruence, in the spec's
BrokenDownTime convention 1 = Monday .. 7 = Sunday. -/
def dayOfWeek (year mon mday : Int) : Int :=
  let y := if mon ≤ 2 then year - 1 else year
  let m := if mon ≤ 2 then mon + 12 else mon
  let K := y % 100
  let J := y / 100
  let h := (mday + 13 * (m + 1) / 5 + K + K / 4 + J / 4 + 5 * J) % 7
  (h + 5) % 7 + 1

/-- Modelled from the spec (§4.1): `base_year` is 1900. -/
def base_year : Int := 1900

/-- Modelled from the spec (§4.1): the missing `calendar.c`'s
`century_offset` — how many centuries (0..3) above `base_year` make the
date's weekday match the decoded weekday, or -1 when none does. -/
def century_offset (t : Tm) : Int :=
  match (List.range 4).find? (fun c =>
      dayOfWeek (base_year + 100 * (c : Int) + t.tm_year) t.tm_mon t.tm_mday
        == t.tm_wday) with
  | some c => (c : Int)
  | none => -1

/-- Modelled from the spec (§4.1): the missing `calendar.c`'s last day of
the month (the source calls it `lastday`), per the Gregorian leap rule. -/
def lastday (t : Tm) : Int :=
  if t.tm_mon == 2 then
    (if t.tm_year % 4 == 0 && (t.tm_year % 100 != 0 || t.tm_year % 400 == 0)
     then 29 else 28)
  else if t.tm_mon == 4 || t.tm_mon == 6 || t.tm_mon == 9 || t.tm_mon == 11 then 30
  else 31

/-- Modelled from the spec (§4.1): day of month of the last Sunday of the
given month, the DST boundary day used by `add_minute`. -/
def lastSundayOf (year mon : Int) : Int :=
  let d := lastday { tm_year := year, tm_mon := mon }
  d - dayOfWeek year mon d % 7

/-- Modelled from the spec (§4.1): the missing `calendar.c`'s
`add_minute` — advance one minute with hour/day/month/year carries; when
`dst_announce` is set and the result lands on a DST boundary (last Sunday
of March 01:00 UTC forward, last Sunday of October 02:00 UTC back) the
hour and the DST flag are adjusted. -/
def add_minute (t : Tm) (dst_announce : Bool) : Tm :=
  let t :=
    if t.tm_min + 1 ≤ 59 then { t with tm_min := t.tm_min + 1 }
    else
      let t := { t with tm_min := 0 }
      if t.tm_hour + 1 ≤ 23 then { t with tm_hour := t.tm_hour + 1 }
      else
        let t := { t with tm_hour := 0, tm_wday := t.tm_wday % 7 + 1 }
        if t.tm_mday + 1 ≤ lastday t then { t with tm_mday := t.tm_mday + 1 }
        else
          let t := { t with tm_mday := 1 }
          if t.tm_mon + 1 ≤ 12 then { t with tm_mon := t.tm_mon + 1 }
          else { t with tm_mon := 1, tm_year := t.tm_year + 1 }
  if dst_announce then
    if t.tm_mon == 3 && t.tm_mday == lastSundayOf t.tm_year 3 &&
        t.tm_hour == 1 && t.tm_min == 0 then
      { t with tm_hour := 2, tm_isdst := 1 }
    else if t.tm_mon == 10 && t.tm_mday == lastSundayOf t.tm_year 10 &&
        t.tm_hour == 2 && t.tm_min == 0 then
      { t with tm_hour := 1, tm_isdst := 0 }
    else t
  else t

/-- Modelled from the spec (§4.1): the missing `calendar.c`'s
`substract_minute` (the source's spelling), symmetric inverse of
`add_minute`. -/
def substract_minute (t : Tm) (dst_announce : Bool) : Tm :=
  let t :=
    if dst_announce then
      if t.tm_mon == 3 && t.tm_mday == lastSundayOf t.tm_year 3 &&
          t.tm_hour == 2 && t.tm_min == 0 then
        { t with tm_hour := 1, tm_isdst := 0 }
      else if t.tm_mon == 10 && t.tm_mday == lastSundayOf t.tm_year 10 &&
          t.tm_hour == 1 && t.tm_min == 0 then
        { t with tm_hour := 2, tm_isdst := 1 }
      else t
    else t
  if t.tm_min ≥ 1 then { t with tm_min := t.tm_min - 1 }
  else
    let t := { t with tm_min := 59 }
    if t.tm_hour ≥ 1 then { t with tm_hour := t.tm_hour - 1 }
    else
      let t := { t with tm_hour := 23, tm_wday := (t.tm_wday + 5) % 7 + 1 }
      if t.tm_mday ≥ 2 then { t with tm_mday := t.tm_mday - 1 }
      else if t.tm_mon ≥ 2 then
        let t := { t with tm_mon := t.tm_mon - 1 }
        { t with tm_mday := lastday t }
      else
        let t := { t with tm_mon := 12, tm_year := t.tm_year - 1 }
        { t with tm_mday := lastday t }

/-! ## The decoder (decode_time.c) -/

/-- `check_time_sanity` (decode_time.c lines 45-64). -/
def check_time_sanity (minlen : Int) (buffer : Nat → Nat) (dt : DT_result) :
    DT_result × Bool :=
  let dt :=
    if minlen == -1 || minlen > 61 then { dt with minute_length := emin_long }
    else if minlen < 59 then { dt with minute_length := emin_short }
    else { dt with minute_length := emin_ok }
  let dt := { dt with
              dst_status := eDST_ok,
              bit0_ok := buffer 0 == 4,
              bit59_ok := buffer 59 == 0 }
  (dt, dt.minute_length == emin_ok && dt.bit0_ok && dt.bit59_ok)

/-- Repeated application, for the minute-increase `for` loops of
`increase_old_time`. -/
def applyN (f : α → α) : Nat → α → α
  | 0, x => x
  | n + 1, x => applyN f n (f x)

/-- `increase_old_time` (decode_time.c lines 71-107).  The static
`acc_minlen_partial` is threaded through as `frac`; the source's unused
`minlen` parameter is kept. -/
def increase_old_time (init_min : Nat) (minlen : Int) (acc_minlen : Nat)
    (dst_announce : Bool) (frac : Nat) (time : Tm) : Int × Tm × Nat :=
  let (acc_minlen, frac) :=
    if acc_minlen ≤ 59000 then
      let frac := frac + acc_minlen
      if frac ≥ 60000 then (frac, frac % 60000) else (acc_minlen, frac)
    else (acc_minlen, frac)
  let increase : Int := (acc_minlen / 60000 : Nat)
  let frac := if acc_minlen ≥ 60000 then frac % 60000 else frac
  let (increase, frac) :=
    if acc_minlen % 60000 > 59000 then (increase + 1, frac % 60000)
    else (increase, frac)
  let time :=
    if init_min < 2 then
      let time :=
        if increase > 0 then applyN (fun u => add_minute u dst_announce) increase.toNat time
        else time
      if increase < 0 then applyN (fun u => substract_minute u dst_announce) (-increase).toNat time
      else time
    else time
  (increase, time, frac)

/-- The year block of `calculate_date_time` (decode_time.c lines
117-130).  The source updates `p1` and `dt_res.year_status` inside the
same branches; here the two updates are written as parallel conditionals
with identical conditions. -/
def calc_year (im ef : Nat) (inc : Int) (buffer : Nat → Nat) (nt : Tm)
    (dt : DT_result) : Bool × Tm × DT_result :=
  let p1 := getpar buffer 17 24 54
  let tmp0 := getbcd buffer 17 24
  let dt :=
    if !p1 then { dt with year_status := eval_parity }
    else if tmp0 > 99 then { dt with year_status := eval_bcd }
    else { dt with year_status := eval_ok }
  let p1 := if !p1 then p1 else if tmp0 > 99 then false else p1
  let nt :=
    if (im == 2 || inc != 0) && p1 && ef == 0 then { nt with tm_year := (tmp0 : Int) }
    else nt
  (p1, nt, dt)

/-- The month/day-of-month block of `calculate_date_time` (decode_time.c
lines 132-161), with the `p2`/`dt_res` updates written as parallel
conditionals as in `calc_year`. -/
def calc_monthmday (im ef : Nat) (inc : Int) (buffer : Nat → Nat) (time nt : Tm)
    (dt : DT_result) : Bool × Tm × DT_result :=
  let p2 := getpar buffer 25 35 55
  let tmp0 := getbcd buffer 25 29
  let tmp1 := getbcd buffer 30 35
  let dt :=
    if !p2 then { dt with month_status := eval_parity, mday_status := eval_parity }
    else
      let dt :=
        if tmp0 == 0 || tmp0 > 12 then { dt with month_status := eval_bcd }
        else { dt with month_status := eval_ok }
      if tmp1 == 0 || tmp1 > 31 then { dt with mday_status := eval_bcd }
      else { dt with mday_status := eval_ok }
  let p2 :=
    if !p2 then p2
    else if (tmp0 == 0 || tmp0 > 12) || (tmp1 == 0 || tmp1 > 31) then false
    else p2
  if (im == 2 || inc != 0) && p2 && ef == 0 then
    let nt := { nt with tm_mon := (tmp0 : Int) }
    let dt :=
      if im == 0 && time.tm_mon != nt.tm_mon then { dt with month_status := eval_jump }
      else dt
    let nt := { nt with tm_mday := (tmp1 : Int) }
    let dt :=
      if im == 0 && time.tm_mday != nt.tm_mday then { dt with mday_status := eval_jump }
      else dt
    (p2, nt, dt)
  else (p2, nt, dt)

/-- The weekday block of `calculate_date_time` (decode_time.c lines
163-180). -/
def calc_wday (im ef : Nat) (inc : Int) (buffer : Nat → Nat) (time nt : Tm)
    (dt : DT_result) : Bool × Tm × DT_result :=
  let p3 := getpar buffer 36 38 56
  let tmp0 := getbcd buffer 36 38
  let dt :=
    if !p3 then { dt with wday_status := eval_parity }
    else if tmp0 == 7 then { dt with wday_status := eval_bcd }
    else { dt with wday_status := eval_ok }
  let p3 := if !p3 then p3 else if tmp0 == 7 then false else p3
  if (im == 2 || inc != 0) && p3 && ef == 0 then
    let nt := { nt with tm_wday := (tmp0 : Int) }
    let dt :=
      if im == 0 && time.tm_wday != nt.tm_wday then { dt with wday_status := eval_jump }
      else dt
    (p3, nt, dt)
  else (p3, nt, dt)

/-- The century block of `calculate_date_time` (decode_time.c lines
182-196). -/
def calc_century (im : Nat) (p1 p2 p3 : Bool) (time nt : Tm) (dt : DT_result) :
    Bool × Bool × Bool × Tm × DT_result :=
  let centofs := century_offset nt
  if centofs == -1 then
    (false, p2, p3, nt, { dt with year_status := eval_bcd })
  else
    let dt :=
      if im == 0 && time.tm_year != base_year + 100 * centofs + nt.tm_year then
        { dt with year_status := eval_jump }
      else dt
    let nt := { nt with tm_year := nt.tm_year + base_year + 100 * centofs }
    if nt.tm_mday > lastday nt then
      (false, false, false, nt, { dt with mday_status := eval_bcd })
    else (p1, p2, p3, nt, dt)

/-- The hour/minute block of `calculate_date_time` (decode_time.c lines
198-227). -/
def calc_hourmin (im ef : Nat) (inc : Int) (buffer : Nat → Nat) (time nt : Tm)
    (dt : DT_result) : Bool × Tm × DT_result :=
  let p4 := getpar buffer 39 51 57
  let tmp0 := getbcd buffer 39 44
  let tmp1 := getbcd buffer 45 51
  let dt :=
    if !p4 then { dt with hour_status := eval_parity, minute_status := eval_parity }
    else
      let dt :=
        if tmp0 > 23 then { dt with hour_status := eval_bcd }
        else { dt with hour_status := eval_ok }
      if tmp1 > 59 then { dt with minute_status := eval_bcd }
      else { dt with minute_status := eval_ok }
  let p4 :=
    if !p4 then p4
    else if tmp0 > 23 || tmp1 > 59 then false
    else p4
  if (im == 2 || inc != 0) && p4 && ef == 0 then
    let nt := { nt with tm_hour := (tmp0 : Int) }
    let dt :=
      if im == 0 && time.tm_hour != nt.tm_hour then { dt with hour_status := eval_jump }
      else dt
    let nt := { nt with tm_min := (tmp1 : Int) }
    let dt :=
      if im == 0 && time.tm_min != nt.tm_min then { dt with minute_status := eval_jump }
      else dt
    (p4, nt, dt)
  else (p4, nt, dt)

/-- C boolean-to-int conversion, used for the errflags word. -/
def cbool (b : Bool) : Nat := if b then 1 else 0

/-- The body of `calculate_date_time` (decode_time.c lines 109-227):
the five field blocks in source order, returning the four parity flags
together with the updated `newtime` and `dt_res`. -/
def calculate_date_time_aux (im ef : Nat) (inc : Int) (buffer : Nat → Nat)
    (time nt : Tm) (dt : DT_result) : Bool × Bool × Bool × Bool × Tm × DT_result :=
  let (p1, nt, dt) := calc_year im ef inc buffer nt dt
  let (p2, nt, dt) := calc_monthmday im ef inc buffer time nt dt
  let (p3, nt, dt) := calc_wday im ef inc buffer time nt dt
  let (p1, p2, p3, nt, dt) := calc_century im p1 p2 p3 time nt dt
  let (p4, nt, dt) := calc_hourmin im ef inc buffer time nt dt
  (p1, p2, p3, p4, nt, dt)

/-- Result of `calculate_date_time`: the errflags word of line 229-230
plus the mutated `newtime` and `dt_res`. -/
structure CalcOut where
  errflags : Nat
  newtime : Tm
  dt : DT_result
deriving Repr

/-- `calculate_date_time` (decode_time.c lines 109-231). -/
def calculate_date_time (im ef : Nat) (inc : Int) (buffer : Nat → Nat)
    (time nt : Tm) (dt : DT_result) : CalcOut :=
  let (p1, p2, p3, p4, nt, dt) := calculate_date_time_aux im ef inc buffer time nt dt
  ⟨(ef <<< 4) ||| (cbool (!p4) <<< 3) ||| (cbool (!p3) <<< 2)
     ||| (cbool (!p2) <<< 1) ||| cbool (!p1),
   nt, dt⟩

/-- `stamp_date_time` (decode_time.c lines 233-247). -/
def stamp_date_time (ef : Nat) (nt : Tm) (time : Tm) (dt : DT_result) : Tm :=
  if dt.minute_length == emin_ok && (ef &&& 0x1f) == 0 then
    let time := { time with
                  tm_min := nt.tm_min,
                  tm_hour := nt.tm_hour,
                  tm_mday := nt.tm_mday,
                  tm_mon := nt.tm_mon,
                  tm_year := nt.tm_year,
                  tm_wday := nt.tm_wday }
    if dt.dst_status != eDST_jump then { time with tm_isdst := nt.tm_isdst }
    else time
  else time

/-- `handle_leap_second` (decode_time.c lines 249-273).  Note that its
only call site, decode_time.c lines 350-356, is compiled out by `#if 0`. -/
def handle_leap_second (ef : Nat) (minlen : Int) (buffer : Nat → Nat)
    (time : Tm) (dt : DT_result) : Nat × DT_result :=
  let (ef, dt) :=
    if time.tm_min == 0 then
      let dt := { dt with leapsecond_status := els_done }
      if minlen == 60 then (ef ||| (1 <<< 5), { dt with minute_length := emin_short })
      else if minlen == 61 && buffer 17 == 1 then
        (ef, { dt with leapsecond_status := els_one })
      else (ef, dt)
    else (ef, { dt with leapsecond_status := els_none })
  if minlen == 61 && dt.leapsecond_status == els_none then
    (ef ||| (1 <<< 5), { dt with minute_length := emin_long })
  else (ef, dt)

/-- The static variables of decode_time.c: `dst_count` and `minute_count`
(file scope), `acc_minlen_partial` (inside `increase_old_time`, threaded
as `frac`), `olderr` (inside `decode_time`) and the result structure
`dt_res`.  All are zero-initialised at program start. -/
structure DecodeState where
  dst_count : Int
  minute_count : Int
  olderr : Bool
  frac : Nat
  dt : DT_result
deriving DecidableEq, Repr

/-- `dt_res` as zero-initialised static storage. -/
def initDT : DT_result :=
  { bit0_ok := false, bit52_ok := false, bit59_ok := false,
    minute_length := emin_ok, minute_status := eval_ok, hour_status := eval_ok,
    mday_status := eval_ok, wday_status := eval_ok, month_status := eval_ok,
    year_status := eval_ok, dst_status := eDST_ok, leapsecond_status := els_none,
    dst_announce := false }

/-- The decoder's static state as zero-initialised at program start. -/
def initDecodeState : DecodeState :=
  { dst_count := 0, minute_count := 0, olderr := false, frac := 0, dt := initDT }

/-- Lines 330-335 of `decode_time`: clear `newtime` (`memset`), set the
current time offset to unknown on the very first minute, and copy the DST
value into the candidate `newtime`. -/
def decode_time_init (init_min : Nat) (time : Tm) : Tm × Tm :=
  let time := if init_min == 2 then { time with tm_isdst := -1 } else time
  let newtime : Tm := { tm_isdst := time.tm_isdst }
  (time, newtime)

/-- Everything `decode_time` computes: the observable results (`dt`, the
updated current time, the new static state) plus the intermediate values
the theorems refer to (the errflags word, the candidate `newtime`, the
monotonically increased time that enters `calculate_date_time`, and the
minute increase). -/
structure DecodeOut where
  dt : DT_result
  time : Tm
  state : DecodeState
  errflags : Nat
  newtime : Tm
  timeInc : Tm
  increase : Int
deriving Repr

/-- `decode_time` (decode_time.c lines 320-368).  The calls to
`handle_leap_second` and `handle_dst` (lines 350-356) are compiled out by
`#if 0` in the source and are therefore absent here;
`handle_special_bits` has an empty body. -/
def decode_time_core (init_min : Nat) (minlen : Int) (acc_minlen : Nat)
    (buffer : Nat → Nat) (time : Tm) (st : DecodeState) : DecodeOut :=
  let (time, newtime) := decode_time_init init_min time
  let (dt, sane) := check_time_sanity minlen buffer st.dt
  let errflags : Nat := if sane then 0 else 1
  let minute_count :=
    if errflags == 0 then (if st.minute_count + 1 == 60 then 0 else st.minute_count + 1)
    else st.minute_count
  let (increase, time, frac) :=
    increase_old_time init_min minlen acc_minlen dt.dst_announce st.frac time
  let c := calculate_date_time init_min errflags increase buffer time newtime dt
  let timeStamped := stamp_date_time c.errflags c.newtime time c.dt
  let olderr := if st.olderr && c.errflags == 0 then false else st.olderr
  let olderr := if c.errflags != 0 then true else olderr
  { dt := c.dt, time := timeStamped,
    state := { dst_count := st.dst_count, minute_count := minute_count,
               olderr := olderr, frac := frac, dt := c.dt },
    errflags := c.errflags, newtime := c.newtime, timeInc := time,
    increase := increase }

/-- The observable part of `decode_time`: the returned `DT_result`, the
updated `*time` and the new static state. -/
def decode_time (init_min : Nat) (minlen : Int) (acc_minlen : Nat)
    (buffer : Nat → Nat) (time : Tm) (st : DecodeState) :
    DT_result × Tm × DecodeState :=
  let o := decode_time_core init_min minlen acc_minlen buffer time st
  (o.dt, o.time, o.state)

/-! ## Concrete decoder inputs used by several theorems -/

/-- A well-formed minute frame: begin-of-minute marker at second 0,
A-bits coding 2019-03-15 (a Friday, weekday 5) 12:34, B-bit (symbol 2) at
parity position 56, all four parities correct. -/
def exBuffer : Nat → Nat := fun i =>
  if i = 0 then 4
  else if i = 56 then 2
  else if i ∈ ([20, 21, 24, 28, 29, 31, 33, 35, 36, 38, 40, 43, 46, 47, 49] : List Nat)
  then 1
  else 0

/-- A current time of 2019-03-15 Friday 12:30 winter time; one
`add_minute` step gives 12:31, three minutes behind the 12:34 coded in
`exBuffer`. -/
def exTime : Tm :=
  { tm_min := 30, tm_hour := 12, tm_mday := 15, tm_mon := 3,
    tm_year := 2019, tm_wday := 5, tm_isdst := 0 }

/-- The same current time at 12:33, which `add_minute` advances to
exactly the 12:34 coded in `exBuffer` (a fully consistent minute). -/
def exTimeOk : Tm := { exTime with tm_min := 33 }

/-- The result `calculate_date_time` produces when every one of its
checks passes (the four parities hold, all values are in range, a century
is found and the day of month fits): zero errflags, the decoded values in
`newtime` under the adoption condition, and each field status `ok`,
except `jump` where a settled decoder sees a value disagreeing with the
incremented current time. -/
def calcSuccessOut (im : Nat) (inc : Int) (buffer : Nat → Nat) (time nt : Tm)
    (dt : DT_result) : CalcOut :=
  let adopt := (im == 2 || inc != 0)
  let nt1 :=
    if adopt then
      { nt with tm_year := (getbcd buffer 17 24 : Int),
                tm_mon := (getbcd buffer 25 29 : Int),
                tm_mday := (getbcd buffer 30 35 : Int),
                tm_wday := (getbcd buffer 36 38 : Int) }
    else nt
  let c := century_offset nt1
  let nt2 := { nt1 with tm_year := nt1.tm_year + base_year + 100 * c }
  let nt3 :=
    if adopt then
      { nt2 with tm_hour := (getbcd buffer 39 44 : Int),
                 tm_min := (getbcd buffer 45 51 : Int) }
    else nt2
  { errflags := 0,
    newtime := nt3,
    dt := { dt with
      year_status :=
        if im == 0 && time.tm_year != base_year + 100 * c + nt1.tm_year
        then eval_jump else eval_ok,
      month_status :=
        if adopt && (im == 0 && time.tm_mon != (getbcd buffer 25 29 : Int))
        then eval_jump else eval_ok,
      mday_status :=
        if adopt && (im == 0 && time.tm_mday != (getbcd buffer 30 35 : Int))
        then eval_jump else eval_ok,
      wday_status :=
        if adopt && (im == 0 && time.tm_wday != (getbcd buffer 36 38 : Int))
        then eval_jump else eval_ok,
      hour_status :=
        if adopt && (im == 0 && time.tm_hour != (getbcd buffer 39 44 : Int))
        then eval_jump else eval_ok,
      minute_status :=
        if adopt && (im == 0 && time.tm_min != (getbcd buffer 45 51 : Int))
        then eval_jump else eval_ok } }

/-- A decoded-value status that is `ok` or `jump` (but not `parity` or
`bcd`). -/
def okOrJump (s : eDT_tval) : Prop := s = eval_ok ∨ s = eval_jump

/-! ## The bit reader and framer (the unnamed input source) -/

/-- Minute-marker state of `struct GB_result`. -/
inductive eGB_marker where
  | emark_none
  | emark_minute
  | emark_toolong
  | emark_late
deriving DecidableEq, Repr

export eGB_marker (emark_none emark_minute emark_toolong emark_late)

/-- Bit value of `struct GB_result`. -/
inductive eGB_bitval where
  | ebv_none
  | ebv_00
  | ebv_10
  | ebv_01
  | ebv_11
  | ebv_bom
deriving DecidableEq, Repr

export eGB_bitval (ebv_none ebv_00 ebv_10 ebv_01 ebv_11 ebv_bom)

/-- Hardware status of `struct GB_result`. -/
inductive eGB_hwstat where
  | ehw_ok
  | ehw_receive
  | ehw_transmit
  | ehw_random
deriving DecidableEq, Repr

export eGB_hwstat (ehw_ok ehw_receive ehw_transmit ehw_random)

/-- `struct GB_result`: the outcome of grabbing one bit. -/
structure GB_result where
  marker : eGB_marker
  bitval : eGB_bitval
  hwstat : eGB_hwstat
  bad_io : Bool
  skip : Bool
  done : Bool
deriving DecidableEq, Repr

/-- The static state of the input translation unit that `get_bit_file`
and `next_bit` read and write — `bitpos`, `dec_bp`, `buffer`,
`acc_minlen`, `bit.t`, `cutoff`, `gb_res`, the `read_acc_minlen` flag of
`get_bit_file` — plus the log file stream, modelled as the list of
characters not yet consumed together with its end-of-file indicator. -/
structure FileSt where
  bitpos : Int
  dec_bp : Nat
  buffer : Nat → Nat
  acc_minlen : Nat
  bit_t : Nat
  cutoff : Int
  gb : GB_result
  read_acc_minlen : Bool
  input : List Char
  eof : Bool

/-- `set_new_state` (input source lines 284-298). -/
def set_new_state (s : FileSt) : FileSt :=
  let s := if !s.gb.skip then { s with cutoff := -1 } else s
  { s with gb := { s.gb with
      bad_io := false,
      bitval := ebv_none,
      marker := if s.gb.marker != emark_toolong && s.gb.marker != emark_late
                then emark_none else s.gb.marker,
      hwstat := ehw_ok,
      done := false,
      skip := false } }

/-- The characters `strchr("012345\nxr#*_a", inch)` accepts. -/
def validChar (c : Char) : Bool := "012345\nxr#*_a".toList.contains c

/-- The loop of `skip_invalid` (input source lines 569-592): read
characters until a valid one is found, converting a `\r` not followed by
`\n` into `\n` (the look-ahead character is pushed back), and stopping at
end of file.  The fuel argument bounds the iteration: every round either
consumes a character or stops at the following one. -/
def skip_invalid_go : Nat → Option Char → List Char → Bool →
    Option Char × List Char × Bool
  | 0, inch, input, eof => (inch, input, eof)
  | fuel + 1, inch, input, eof =>
    let oldinch := inch
    if eof then (inch, input, eof)
    else
      let (inch, input, eof) :=
        match input with
        | [] => (none, [], true)
        | c :: r => (some c, r, eof)
      let (inch, input) :=
        if oldinch == some '\r' && inch != some '\n' then
          (some '\n', match inch with | some c => c :: input | none => input)
        else (inch, input)
      match inch with
      | some c =>
        if validChar c then (inch, input, eof)
        else skip_invalid_go fuel inch input eof
      | none => skip_invalid_go fuel inch input eof

/-- `skip_invalid` acting on the stream of a `FileSt`. -/
def skip_invalid (s : FileSt) : Option Char × FileSt :=
  let r := skip_invalid_go (s.input.length + 2) none s.input s.eof
  (r.1, { s with input := r.2.1, eof := r.2.2 })

/-- `fscanf(logfile, "%10u", &acc_minlen)`: skip whitespace, then read up
to 10 digits into an unsigned value; `none` when no digit is found. -/
def scan_unsigned (input : List Char) : Option Nat × List Char :=
  let input := input.dropWhile (fun c => c == ' ' || c == '\t' || c == '\n'
    || c == '\r' || c == '\x0b' || c == '\x0c')
  let ds := (input.takeWhile (fun c => c.isDigit)).take 10
  if ds.isEmpty then (none, input)
  else (some ((ds.foldl (fun a c => a * 10 + (c.toNat - 48)) 0) % 2 ^ 32),
        input.drop ds.length)

/-- The one-character read-ahead block of `get_bit_file` (input source
lines 672-688): peek at the next valid character, request a `dec_bp`
roll-back when a minute boundary (`\n` or an `a` record) follows a real
bit, set `done` at end of file, and push the peeked character back. -/
def gbf_readahead (oldinch : Char) (s : FileSt) : FileSt :=
  let (inch2, s) := skip_invalid s
  let s :=
    if !s.eof then
      if s.dec_bp == 0 && s.bitpos > 0 && oldinch != '\n' &&
          (inch2 == some '\n' || inch2 == some 'a') then
        { s with dec_bp := 1 }
      else s
    else { s with gb := { s.gb with done := true } }
  match inch2 with
  | some c2 => { s with input := c2 :: s.input, eof := false }
  | none => s

/-- The `switch (inch)` of `get_bit_file` (input source lines 610-666)
for a consumed character `c`: a digit '0'..'4' goes into the buffer at
the current `bitpos`, the hardware/bad-io codes set `gb_res`, an `a`
record reads the logged `acc_minlen`, and everything else ('5', `\n`)
falls through the `default` label. -/
def gbf_case (c : Char) (s : FileSt) : FileSt :=
  if '0' ≤ c && c ≤ '4' then
    { s with
      buffer := fun i => if i = s.bitpos.toNat then c.toNat - 48 else s.buffer i,
      gb := { s.gb with
        bitval := if c == '0' then ebv_00
                  else if c == '1' then ebv_10
                  else if c == '2' then ebv_01
                  else if c == '3' then ebv_11
                  else if c == '4' then ebv_bom
                  else ebv_none,
        marker := if c == '4' then
                    (if s.gb.marker == emark_none then emark_minute
                     else if s.gb.marker == emark_toolong then emark_late
                     else s.gb.marker)
                  else s.gb.marker },
      bit_t := 1000 }
  else if c == 'x' then
    { s with gb := { s.gb with hwstat := ehw_transmit }, bit_t := 1500 }
  else if c == 'r' then
    { s with gb := { s.gb with hwstat := ehw_receive }, bit_t := 1500 }
  else if c == '#' then
    { s with gb := { s.gb with hwstat := ehw_random }, bit_t := 1500 }
  else if c == '*' then
    { s with gb := { s.gb with bad_io := true }, bit_t := 0 }
  else if c == '_' then
    { s with gb := { s.gb with bitval := ebv_none }, bit_t := 1000 }
  else if c == 'a' then
    let r := scan_unsigned s.input
    let s := { s with gb := { s.gb with skip := true }, bit_t := 0, input := r.2 }
    let s :=
      match r.1 with
      | some v => { s with acc_minlen := v }
      | none => { s with gb := { s.gb with done := true } }
    { s with read_acc_minlen := !s.gb.done }
  else s

/-- `get_bit_file` (input source lines 594-689). -/
def get_bit_file (s : FileSt) : FileSt :=
  let s := set_new_state s
  let (inch, s) := skip_invalid s
  match inch with
  | none => { s with gb := { s.gb with done := true } }
  | some c =>
    let s := gbf_case c s
    let s :=
      if !s.read_acc_minlen then
        { s with acc_minlen := (s.acc_minlen + s.bit_t) % 2 ^ 32 }
      else s
    gbf_readahead c s

/-- `BUFLEN` (input source line 46): maximum number of bits in a minute. -/
def BUFLEN : Int := 61

/-- `next_bit` (input source lines 699-724). -/
def next_bit (s : FileSt) : FileSt :=
  let s := if s.dec_bp == 1 then { s with bitpos := s.bitpos - 1, dec_bp := 2 }
           else s
  let s :=
    if s.gb.marker == emark_minute || s.gb.marker == emark_late then
      { s with bitpos := 1, dec_bp := 0 }
    else if !s.gb.skip then { s with bitpos := s.bitpos + 1 }
    else s
  if s.bitpos == BUFLEN then
    { s with gb := { s.gb with marker := emark_toolong }, bitpos := 0 }
  else if s.gb.marker == emark_toolong then
    { s with gb := { s.gb with marker := emark_none } }
  else if s.gb.marker == emark_late then
    { s with gb := { s.gb with marker := emark_minute } }
  else s

/-- The timeout check of `collect_pulses` (input source lines 372-385):
when the sample counter `bit.t` exceeds `bit.realfreq * 1500000`,
classify the second (signal mostly low → receive, at least 99% high →
transmit, otherwise random) and stop the second.  Returns the status the
branch would assign, or `none` when the branch is not taken. -/
def collect_pulses_timeout (t : Nat) (tlow : Int) (hwfreq : Nat)
    (realfreq : Int) : Option eGB_hwstat :=
  if (t : Int) > realfreq * 1500000 then
    some (if tlow ≤ (hwfreq : Int) / 20 then ehw_receive
          else if tlow * 100 / (t : Int) ≥ 99 then ehw_transmit
          else ehw_random)
  else none

/-- The decoder-driving state of `check_handle_new_minute`
(src/mainloop.c lines 13-50): `mainloop`'s current time and `init_min`,
the input-unit `acc_minlen` it reaches through
`get_acc_minlen`/`reset_acc_minlen`, and the decoder statics.  The
display hooks and the `settime`/`setclock` handling touch none of these
fields and are omitted. -/
structure MLState where
  curtime : Tm
  init_min : Nat
  acc_minlen : Nat
  dst : DecodeState

/-- `check_handle_new_minute` (src/mainloop.c lines 13-50), restricted to
the state above; `reset_acc_minlen` (input source lines 792-796) is the
assignment of 0 to `acc_minlen`. -/
def check_handle_new_minute (marker : eGB_marker) (minlen : Int)
    (was_toolong : Bool) (buffer : Nat → Nat) (s : MLState) : MLState :=
  if (marker == emark_minute || marker == emark_late) && !was_toolong then
    let r := decode_time s.init_min minlen s.acc_minlen buffer s.curtime s.dst
    let s := { s with curtime := r.2.1, dst := r.2.2 }
    let s := if marker == emark_minute || marker == emark_late then
               { s with acc_minlen := 0 }
             else s
    if s.init_min > 0 then { s with init_min := s.init_min - 1 } else s
  else s

/-- A mid-minute reader state: `bitpos` 3, clean `gb_res`, 2000 ms
accumulated, `bit.t` 1000, and the characters `a5`, newline, `0` still
pending in the log. -/
def exFileSt : FileSt :=
  { bitpos := 3, dec_bp := 0, buffer := fun _ => 0, acc_minlen := 2000,
    bit_t := 1000, cutoff := -1,
    gb := { marker := emark_none, bitval := ebv_none, hwstat := ehw_ok,
            bad_io := false, skip := false, done := false },
    read_acc_minlen := false, input := "a5\n0".toList, eof := false }

/-- The character a `get_bit_file` call consumes: the result of its
first `skip_invalid`. -/
def gbf_consumed (s : FileSt) : Option Char :=
  (skip_invalid (set_new_state s)).1

/-! ## Theorems settling the claims -/

/-- For any value, the B bit of the claim (`(x & 2)`, counted as 0 or 1)
has the same parity contribution as the full shift `x >> 1` used by the
source. -/
theorem and_two_div_two (x : Nat) : (x &&& 2) / 2 = x / 2 % 2 := by
  have h := Nat.and_two_pow x 1
  rw [Nat.testBit_to_div_mod] at h
  norm_num at h
  rcases Nat.mod_two_eq_zero_or_one (x / 2) with h0 | h0 <;> simp [h, h0]

/-- Claim C1 is wrong about the polarity: on the all-zero buffer, the
parity count of the year field (data bits 17..24, parity position 54) is
even, yet `getpar` returns `false`, not `true` as the claim states. -/
theorem C1_getpar_counterexample :
    spec_parity_count (fun _ => 0) 17 24 54 % 2 = 0 ∧
    getpar (fun _ => 0) 17 24 54 = false := by
  constructor <;> rfl

/-- Claim C1, amended: `getpar(buffer, start, stop, p)` returns true
exactly when the number of set A-bits among `buffer[start..stop]` plus
the B-bit of `buffer[p]` is odd (the MSF parity bits give odd parity over
the total). -/
theorem C1_getpar_odd (buffer : Nat → Nat) (start stop parity : Nat) :
    getpar buffer start stop parity = true ↔
      spec_parity_count buffer start stop parity % 2 = 1 := by
  have h2 := and_two_div_two (buffer parity)
  simp only [getpar, spec_parity_count, beq_iff_eq, Nat.shiftRight_eq_div_pow,
    pow_one, Nat.and_one_is_mod, h2]
  omega

/-- Claim C4 fails: the `mul == 16` check of `getbcd` fires only once,
after the lowest (units) 4-bit group, so a year field whose tens nibble is
15 decodes to 150 — not to the sentinel 100 the claim requires for every
over-9 group. -/
theorem C4_getbcd_counterexample : getbcd bufC4 17 24 = 150 ∧ (150 : Nat) ≠ 100 := by
  constructor
  · rfl
  · decide

/-- Claim C4, amended: `getbcd(buffer, start, stop)` returns the sentinel
100 whenever the lowest (units) 4-bit BCD group of the field — the last
four data bits `stop-3..stop` — decodes to a value greater than 9; for
higher groups the out-of-range value is instead propagated (and rejected
by the callers' range checks). -/
theorem C4_getbcd_units (buffer : Nat → Nat) (start stop : Nat)
    (hw : start + 3 ≤ stop)
    (hnib : 9 < (buffer stop &&& 1) + 2 * (buffer (stop - 1) &&& 1)
      + 4 * (buffer (stop - 2) &&& 1) + 8 * (buffer (stop - 3) &&& 1)) :
    getbcd buffer start stop = 100 := by
  obtain ⟨k, hk⟩ : ∃ k, stop = start + k + 3 := ⟨stop - start - 3, by omega⟩
  have h1 : stop + 1 - start = k + 4 := by omega
  rw [getbcd, h1]
  simp only [getbcdGo]
  have hb3 : start + (k + 3) = stop := by omega
  have hb2 : start + (k + 2) = stop - 1 := by omega
  have hb1 : start + (k + 1) = stop - 2 := by omega
  have hb0 : start + k = stop - 3 := by omega
  rw [hb3, hb2, hb1, hb0]
  simp only [Nat.and_one_is_mod] at hnib ⊢
  norm_num
  omega

/-- Witness for `C4_getbcd_units` at the field 17..24 of `bufC4w`. -/
theorem C4_getbcd_units_witness :
    (17 + 3 ≤ 24 ∧
      9 < (bufC4w 24 &&& 1) + 2 * (bufC4w (24 - 1) &&& 1)
        + 4 * (bufC4w (24 - 2) &&& 1) + 8 * (bufC4w (24 - 3) &&& 1)) ∧
    getbcd bufC4w 17 24 = 100 :=
  ⟨⟨by decide, by decide⟩, C4_getbcd_units bufC4w 17 24 (by decide) (by decide)⟩

/-- Claim C2 fails: on a settled decoder (`init_min = 0`) fed `exBuffer`
(a clean 59-bit minute coding 12:34) with the current time at 12:30, the
minute is committed — `minute_length` is `emin_ok`, the low five errflag
bits are zero, and the current time's minute is replaced by the decoded
34 — yet `minute_status` is `eval_jump`, not `eval_ok`. -/
theorem C2_commit_with_jump_counterexample :
    (decode_time_core 0 59 60000 exBuffer exTime initDecodeState).dt.minute_length
        = emin_ok ∧
    (decode_time_core 0 59 60000 exBuffer exTime initDecodeState).errflags &&& 0x1f
        = 0 ∧
    exTime.tm_min = 30 ∧
    (decode_time_core 0 59 60000 exBuffer exTime initDecodeState).time.tm_min = 34 ∧
    (decode_time_core 0 59 60000 exBuffer exTime initDecodeState).dt.minute_status
        = eval_jump :=
  ⟨rfl, rfl, rfl, rfl, rfl⟩

/-- Claim C3's second half fails: same run as
`C2_commit_with_jump_counterexample` — the decoder is settled
(`init_min = 0`), the freshly decoded minute 34 disagrees with the
`add_minute` increment 12:31 of the current time, the status duly becomes
`eval_jump`, but the decoded value IS adopted into the current time. -/
theorem C3_jump_value_adopted_counterexample :
    (decode_time_core 0 59 60000 exBuffer exTime initDecodeState).timeInc.tm_min = 31 ∧
    getbcd exBuffer 45 51 = 34 ∧
    (decode_time_core 0 59 60000 exBuffer exTime initDecodeState).dt.minute_status
        = eval_jump ∧
    (decode_time_core 0 59 60000 exBuffer exTime initDecodeState).time.tm_min = 34 :=
  ⟨rfl, rfl, rfl, rfl⟩

/-- The year block leaves everything but `year_status` of `dt_res` and
`tm_year` of `newtime` alone. -/
theorem calc_year_frame (im ef : Nat) (inc : Int) (buffer : Nat → Nat) (nt : Tm)
    (dt : DT_result) :
    (calc_year im ef inc buffer nt dt).2.2.minute_length = dt.minute_length ∧
    (calc_year im ef inc buffer nt dt).2.2.dst_status = dt.dst_status ∧
    (calc_year im ef inc buffer nt dt).2.2.leapsecond_status = dt.leapsecond_status ∧
    (calc_year im ef inc buffer nt dt).2.2.dst_announce = dt.dst_announce := by
  unfold calc_year
  dsimp only
  split_ifs <;> simp

/-- Frame fact for the month/day block. -/
theorem calc_monthmday_frame (im ef : Nat) (inc : Int) (buffer : Nat → Nat)
    (time nt : Tm) (dt : DT_result) :
    (calc_monthmday im ef inc buffer time nt dt).2.2.minute_length = dt.minute_length ∧
    (calc_monthmday im ef inc buffer time nt dt).2.2.dst_status = dt.dst_status ∧
    (calc_monthmday im ef inc buffer time nt dt).2.2.leapsecond_status
      = dt.leapsecond_status ∧
    (calc_monthmday im ef inc buffer time nt dt).2.2.dst_announce = dt.dst_announce := by
  unfold calc_monthmday
  dsimp only
  split_ifs <;> simp

/-- Frame fact for the weekday block. -/
theorem calc_wday_frame (im ef : Nat) (inc : Int) (buffer : Nat → Nat)
    (time nt : Tm) (dt : DT_result) :
    (calc_wday im ef inc buffer time nt dt).2.2.minute_length = dt.minute_length ∧
    (calc_wday im ef inc buffer time nt dt).2.2.dst_status = dt.dst_status ∧
    (calc_wday im ef inc buffer time nt dt).2.2.leapsecond_status = dt.leapsecond_status ∧
    (calc_wday im ef inc buffer time nt dt).2.2.dst_announce = dt.dst_announce := by
  unfold calc_wday
  dsimp only
  split_ifs <;> simp

/-- Frame fact for the century block. -/
theorem calc_century_frame (im : Nat) (p1 p2 p3 : Bool) (time nt : Tm)
    (dt : DT_result) :
    (calc_century im p1 p2 p3 time nt dt).2.2.2.2.minute_length = dt.minute_length ∧
    (calc_century im p1 p2 p3 time nt dt).2.2.2.2.dst_status = dt.dst_status ∧
    (calc_century im p1 p2 p3 time nt dt).2.2.2.2.leapsecond_status
      = dt.leapsecond_status ∧
    (calc_century im p1 p2 p3 time nt dt).2.2.2.2.dst_announce = dt.dst_announce := by
  unfold calc_century
  dsimp only
  split_ifs <;> simp

/-- Frame fact for the hour/minute block. -/
theorem calc_hourmin_frame (im ef : Nat) (inc : Int) (buffer : Nat → Nat)
    (time nt : Tm) (dt : DT_result) :
    (calc_hourmin im ef inc buffer time nt dt).2.2.minute_length = dt.minute_length ∧
    (calc_hourmin im ef inc buffer time nt dt).2.2.dst_status = dt.dst_status ∧
    (calc_hourmin im ef inc buffer time nt dt).2.2.leapsecond_status
      = dt.leapsecond_status ∧
    (calc_hourmin im ef inc buffer time nt dt).2.2.dst_announce = dt.dst_announce := by
  unfold calc_hourmin
  dsimp only
  split_ifs <;> simp

/-- `calculate_date_time` writes only the six field statuses of
`dt_res`; minute length, DST fields and leap-second status pass through. -/
theorem calculate_date_time_frame (im ef : Nat) (inc : Int) (buffer : Nat → Nat)
    (time nt : Tm) (dt : DT_result) :
    (calculate_date_time im ef inc buffer time nt dt).dt.minute_length
      = dt.minute_length ∧
    (calculate_date_time im ef inc buffer time nt dt).dt.dst_status = dt.dst_status ∧
    (calculate_date_time im ef inc buffer time nt dt).dt.leapsecond_status
      = dt.leapsecond_status ∧
    (calculate_date_time im ef inc buffer time nt dt).dt.dst_announce
      = dt.dst_announce := by
  unfold calculate_date_time calculate_date_time_aux
  dsimp only
  refine ⟨?_, ?_, ?_, ?_⟩
  · rw [(calc_hourmin_frame _ _ _ _ _ _ _).1, (calc_century_frame _ _ _ _ _ _ _).1,
      (calc_wday_frame _ _ _ _ _ _ _).1, (calc_monthmday_frame _ _ _ _ _ _ _).1,
      (calc_year_frame _ _ _ _ _ _).1]
  · rw [(calc_hourmin_frame _ _ _ _ _ _ _).2.1, (calc_century_frame _ _ _ _ _ _ _).2.1,
      (calc_wday_frame _ _ _ _ _ _ _).2.1, (calc_monthmday_frame _ _ _ _ _ _ _).2.1,
      (calc_year_frame _ _ _ _ _ _).2.1]
  · rw [(calc_hourmin_frame _ _ _ _ _ _ _).2.2.1, (calc_century_frame _ _ _ _ _ _ _).2.2.1,
      (calc_wday_frame _ _ _ _ _ _ _).2.2.1, (calc_monthmday_frame _ _ _ _ _ _ _).2.2.1,
      (calc_year_frame _ _ _ _ _ _).2.2.1]
  · rw [(calc_hourmin_frame _ _ _ _ _ _ _).2.2.2, (calc_century_frame _ _ _ _ _ _ _).2.2.2,
      (calc_wday_frame _ _ _ _ _ _ _).2.2.2, (calc_monthmday_frame _ _ _ _ _ _ _).2.2.2,
      (calc_year_frame _ _ _ _ _ _).2.2.2]

/-- When the year block leaves `p1` set, the year status became `ok` and
under the adoption condition the decoded year went into `newtime`. -/
theorem calc_year_char (im ef : Nat) (inc : Int) (buffer : Nat → Nat) (nt : Tm)
    (dt : DT_result) (h : (calc_year im ef inc buffer nt dt).1 = true) :
    calc_year im ef inc buffer nt dt =
      (true,
       (if (im == 2 || inc != 0) && ef == 0 then
          { nt with tm_year := (getbcd buffer 17 24 : Int) }
        else nt),
       { dt with year_status := eval_ok }) := by
  by_cases hp : getpar buffer 17 24 54
  · by_cases hb : getbcd buffer 17 24 > 99
    · simp [calc_year, hp, hb] at h
    · simp [calc_year, hp, hb]
  · simp [calc_year, hp] at h

/-- When the month/day block leaves `p2` set, both statuses became `ok`
(or `jump` under a settled-decoder disagreement) and under the adoption
condition the decoded month and day went into `newtime`. -/
theorem calc_monthmday_char (im ef : Nat) (inc : Int) (buffer : Nat → Nat)
    (time nt : Tm) (dt : DT_result)
    (h : (calc_monthmday im ef inc buffer time nt dt).1 = true) :
    calc_monthmday im ef inc buffer time nt dt =
      (true,
       (if (im == 2 || inc != 0) && (ef == 0) then
          { nt with tm_mon := (getbcd buffer 25 29 : Int),
                    tm_mday := (getbcd buffer 30 35 : Int) }
        else nt),
       { dt with
         month_status :=
           if ((im == 2 || inc != 0) && (ef == 0)) &&
               (im == 0 && time.tm_mon != (getbcd buffer 25 29 : Int))
           then eval_jump else eval_ok,
         mday_status :=
           if ((im == 2 || inc != 0) && (ef == 0)) &&
               (im == 0 && time.tm_mday != (getbcd buffer 30 35 : Int))
           then eval_jump else eval_ok }) := by
  by_cases hp : getpar buffer 25 35 55
  · by_cases hm : (getbcd buffer 25 29 == 0 || decide (getbcd buffer 25 29 > 12)) = true
    · simp [calc_monthmday, hp, hm] at h
    · by_cases hd : (getbcd buffer 30 35 == 0 || decide (getbcd buffer 30 35 > 31)) = true
      · simp [calc_monthmday, hp, hm, hd] at h
      · by_cases ha : ((im == 2 || inc != 0) && (ef == 0)) = true
        · by_cases hj1 : (im == 0 && time.tm_mon != (getbcd buffer 25 29 : Int)) = true
            <;> by_cases hj2 : (im == 0 && time.tm_mday != (getbcd buffer 30 35 : Int)) = true
            <;> simp [calc_monthmday, hp, hm, hd, ha, hj1, hj2]
        · simp [calc_monthmday, hp, hm, hd, ha]
  · simp [calc_monthmday, hp] at h

/-- When the weekday block leaves `p3` set, the status became `ok` (or
`jump`) and under the adoption condition the decoded weekday went into
`newtime`. -/
theorem calc_wday_char (im ef : Nat) (inc : Int) (buffer : Nat → Nat)
    (time nt : Tm) (dt : DT_result)
    (h : (calc_wday im ef inc buffer time nt dt).1 = true) :
    calc_wday im ef inc buffer time nt dt =
      (true,
       (if (im == 2 || inc != 0) && (ef == 0) then
          { nt with tm_wday := (getbcd buffer 36 38 : Int) }
        else nt),
       { dt with
         wday_status :=
           if ((im == 2 || inc != 0) && (ef == 0)) &&
               (im == 0 && time.tm_wday != (getbcd buffer 36 38 : Int))
           then eval_jump else eval_ok }) := by
  by_cases hp : getpar buffer 36 38 56
  · by_cases hb : (getbcd buffer 36 38 == 7) = true
    · simp [calc_wday, hp, hb] at h
    · by_cases ha : ((im == 2 || inc != 0) && (ef == 0)) = true
      · by_cases hj : (im == 0 && time.tm_wday != (getbcd buffer 36 38 : Int)) = true
          <;> simp [calc_wday, hp, hb, ha, hj]
      · simp [calc_wday, hp, hb, ha]
  · simp [calc_wday, hp] at h

/-- When the century block leaves its first flag set, a century was
found, the day of month fits the month, `newtime` got the full year, and
the year status possibly became `jump` on a settled-decoder mismatch. -/
theorem calc_century_char (im : Nat) (p1 p2 p3 : Bool) (time nt : Tm)
    (dt : DT_result) (h : (calc_century im p1 p2 p3 time nt dt).1 = true) :
    p1 = true ∧
    calc_century im p1 p2 p3 time nt dt =
      (true, p2, p3,
       { nt with tm_year := nt.tm_year + base_year + 100 * century_offset nt },
       { dt with
         year_status :=
           if im == 0 && time.tm_year != base_year + 100 * century_offset nt + nt.tm_year
           then eval_jump else dt.year_status }) := by
  by_cases hc : (century_offset nt == -1) = true
  · simp [calc_century, hc] at h
  · by_cases hl : nt.tm_mday >
        lastday { nt with tm_year := nt.tm_year + base_year + 100 * century_offset nt }
    · by_cases hj : (im == 0 &&
          time.tm_year != base_year + 100 * century_offset nt + nt.tm_year) = true
        <;> simp [calc_century, hc, hl, hj] at h
    · have hp1 : p1 = true := by simpa [calc_century, hc, hl] using h
      subst hp1
      refine ⟨rfl, ?_⟩
      by_cases hj : (im == 0 &&
          time.tm_year != base_year + 100 * century_offset nt + nt.tm_year) = true
        <;> simp [calc_century, hc, hl, hj]

/-- When the hour/minute block leaves `p4` set, both statuses became `ok`
(or `jump`) and under the adoption condition the decoded hour and minute
went into `newtime`. -/
theorem calc_hourmin_char (im ef : Nat) (inc : Int) (buffer : Nat → Nat)
    (time nt : Tm) (dt : DT_result)
    (h : (calc_hourmin im ef inc buffer time nt dt).1 = true) :
    calc_hourmin im ef inc buffer time nt dt =
      (true,
       (if (im == 2 || inc != 0) && (ef == 0) then
          { nt with tm_hour := (getbcd buffer 39 44 : Int),
                    tm_min := (getbcd buffer 45 51 : Int) }
        else nt),
       { dt with
         hour_status :=
           if ((im == 2 || inc != 0) && (ef == 0)) &&
               (im == 0 && time.tm_hour != (getbcd buffer 39 44 : Int))
           then eval_jump else eval_ok,
         minute_status :=
           if ((im == 2 || inc != 0) && (ef == 0)) &&
               (im == 0 && time.tm_min != (getbcd buffer 45 51 : Int))
           then eval_jump else eval_ok }) := by
  by_cases hp : getpar buffer 39 51 57
  · by_cases hh : getbcd buffer 39 44 > 23
    · simp [calc_hourmin, hp, hh] at h
    · by_cases hm : getbcd buffer 45 51 > 59
      · simp [calc_hourmin, hp, hh, hm] at h
      · by_cases ha : ((im == 2 || inc != 0) && (ef == 0)) = true
        · by_cases hj1 : (im == 0 && time.tm_hour != (getbcd buffer 39 44 : Int)) = true
            <;> by_cases hj2 : (im == 0 && time.tm_min != (getbcd buffer 45 51 : Int)) = true
            <;> simp [calc_hourmin, hp, hh, hm, ha, hj1, hj2]
        · simp [calc_hourmin, hp, hh, hm, ha]
  · simp [calc_hourmin, hp] at h

/-- The errflags word built on decode_time.c line 229-230 has all five
low bits clear exactly when the incoming errflags value (0 or 1) and the
four parity-failure bits are all clear. -/
theorem errword_eq_zero (e : Nat) (b4 b3 b2 b1 : Bool) (he : e ≤ 1) :
    (((e <<< 4) ||| (cbool b4 <<< 3) ||| (cbool b3 <<< 2) ||| (cbool b2 <<< 1)
        ||| cbool b1) &&& 0x1f = 0) ↔
      (e = 0 ∧ b4 = false ∧ b3 = false ∧ b2 = false ∧ b1 = false) := by
  interval_cases e <;> cases b4 <;> cases b3 <;> cases b2 <;> cases b1 <;> decide

/-- Success characterization of `calculate_date_time`: if the low five
bits of the produced errflags word are clear, the incoming errflags were
zero and the result is exactly `calcSuccessOut`. -/
theorem calculate_success (im ef : Nat) (inc : Int) (buffer : Nat → Nat)
    (time nt : Tm) (dt : DT_result) (he : ef ≤ 1)
    (h : (calculate_date_time im ef inc buffer time nt dt).errflags &&& 0x1f = 0) :
    ef = 0 ∧
    calculate_date_time im ef inc buffer time nt dt
      = calcSuccessOut im inc buffer time nt dt := by
  unfold calculate_date_time calculate_date_time_aux at h ⊢
  dsimp only at h ⊢
  generalize eY : calc_year im ef inc buffer nt dt = rY at h ⊢
  obtain ⟨p1, nt1, dt1⟩ := rY
  dsimp only at h ⊢
  generalize eM : calc_monthmday im ef inc buffer time nt1 dt1 = rM at h ⊢
  obtain ⟨p2, nt2, dt2⟩ := rM
  dsimp only at h ⊢
  generalize eW : calc_wday im ef inc buffer time nt2 dt2 = rW at h ⊢
  obtain ⟨p3, nt3, dt3⟩ := rW
  dsimp only at h ⊢
  generalize eC : calc_century im p1 p2 p3 time nt3 dt3 = rC at h ⊢
  obtain ⟨q1, q2, q3, nt4, dt4⟩ := rC
  dsimp only at h ⊢
  generalize eH : calc_hourmin im ef inc buffer time nt4 dt4 = rH at h ⊢
  obtain ⟨p4, nt5, dt5⟩ := rH
  dsimp only at h ⊢
  rw [errword_eq_zero ef (!p4) (!q3) (!q2) (!q1) he] at h
  obtain ⟨hef, hb4, hb3, hb2, hb1⟩ := h
  simp only [Bool.not_eq_false'] at hb4 hb3 hb2 hb1
  subst hef
  obtain ⟨hp1, cC⟩ := calc_century_char im p1 p2 p3 time nt3 dt3 (by rw [eC]; exact hb1)
  rw [eC] at cC
  simp only [Prod.mk.injEq] at cC
  obtain ⟨rq1, rq2, rq3, rnt4, rdt4⟩ := cC
  subst rq2 rq3 rnt4 rdt4
  have cY := calc_year_char im 0 inc buffer nt dt (by rw [eY]; exact hp1)
  rw [eY] at cY
  simp only [Prod.mk.injEq] at cY
  obtain ⟨-, rnt1, rdt1⟩ := cY
  subst rnt1 rdt1
  have cM := calc_monthmday_char im 0 inc buffer time _ _ (by rw [eM]; exact hb2)
  rw [eM] at cM
  simp only [Prod.mk.injEq] at cM
  obtain ⟨-, rnt2, rdt2⟩ := cM
  subst rnt2 rdt2
  have cW := calc_wday_char im 0 inc buffer time _ _ (by rw [eW]; exact hb3)
  rw [eW] at cW
  simp only [Prod.mk.injEq] at cW
  obtain ⟨-, rnt3, rdt3⟩ := cW
  subst rnt3 rdt3
  have cH := calc_hourmin_char im 0 inc buffer time _ _ (by rw [eH]; exact hb4)
  rw [eH] at cH
  simp only [Prod.mk.injEq] at cH
  obtain ⟨-, rnt5, rdt5⟩ := cH
  subst rnt5 rdt5
  subst hb1 hb2 hb3 hb4
  refine ⟨rfl, ?_⟩
  by_cases hadopt : (im == 2 || inc != 0) = true
    <;> simp [calcSuccessOut, hadopt, cbool]

/-- When `check_time_sanity` reports success, the minute length it
recorded is `emin_ok`. -/
theorem check_time_sanity_ok (minlen : Int) (buffer : Nat → Nat) (dt : DT_result)
    (h : (check_time_sanity minlen buffer dt).2 = true) :
    (check_time_sanity minlen buffer dt).1.minute_length = emin_ok := by
  unfold check_time_sanity at h ⊢
  dsimp only at h ⊢
  simp only [Bool.and_eq_true, beq_iff_eq] at h
  exact h.1.1

/-- `check_time_sanity` leaves the leap-second status alone. -/
theorem check_time_sanity_frame (minlen : Int) (buffer : Nat → Nat)
    (dt : DT_result) :
    (check_time_sanity minlen buffer dt).1.leapsecond_status
      = dt.leapsecond_status := by
  unfold check_time_sanity
  dsimp only
  split_ifs <;> simp

/-- Claim C5: `handle_leap_second` is compiled out (`#if 0`,
decode_time.c lines 350-356), so `decode_time` never writes
`leapsecond_status` — the returned value is whatever the static `dt_res`
already held.  In particular (second conjunct) a call with the current
minute equal to 0 and `init_min < 2` from the zero-initialised startup
state returns `els_none`, not the `els_done` the claim requires; the
third conjunct shows the compiled-out `handle_leap_second` itself would
have set `els_done` there, as the spec demands. -/
theorem C5_leapsecond_never_written :
    (∀ (init_min : Nat) (minlen : Int) (acc_minlen : Nat) (buffer : Nat → Nat)
        (time : Tm) (st : DecodeState),
      (decode_time_core init_min minlen acc_minlen buffer time st).dt.leapsecond_status
        = st.dt.leapsecond_status) ∧
    (decode_time_core 1 59 0 exBuffer { exTime with tm_min := 0 }
        initDecodeState).dt.leapsecond_status = els_none ∧
    (handle_leap_second 0 59 exBuffer { exTime with tm_min := 0 }
        initDT).2.leapsecond_status = els_done := by
  refine ⟨?_, rfl, rfl⟩
  intro init_min minlen acc_minlen buffer time st
  unfold decode_time_core
  dsimp only
  rw [(calculate_date_time_frame _ _ _ _ _ _ _).2.2.1,
    check_time_sanity_frame]

/-- Claim C10: on every call of `decode_time` with `init_min = 2` the
current time's DST flag is set to -1 (unknown) before decoding and that
value is carried into the candidate `newtime` (decode_time.c lines
330-335, embedded as `decode_time_init`, through which
`decode_time_core` is defined). -/
theorem C10_isdst_unknown_at_start (time : Tm) :
    (decode_time_init 2 time).1.tm_isdst = -1 ∧
    (decode_time_init 2 time).2.tm_isdst = -1 :=
  ⟨rfl, rfl⟩

/-- A status that is `eval_jump` under some condition and `eval_ok`
otherwise is `ok`-or-`jump`. -/
theorem okOrJump_ite (c : Prop) [Decidable c] :
    okOrJump (if c then eval_jump else eval_ok) := by
  unfold okOrJump
  split <;> simp

/-- Claim C2, amended: for every call of `decode_time` that commits (the
stamp condition of `stamp_date_time` holds: `minute_length` is `emin_ok`
and the low five errflag bits are zero), `minute_length` is `emin_ok` and
each of the six field statuses of the returned `DT_result` is `eval_ok`
or `eval_jump` — but not necessarily `eval_ok`: a settled decoder that
disagrees with the decoded value commits with an `eval_jump` status (see
the counterexample). -/
theorem C2_commit_statuses (init_min : Nat) (minlen : Int) (acc_minlen : Nat)
    (buffer : Nat → Nat) (time : Tm) (st : DecodeState) (o : DecodeOut)
    (ho : decode_time_core init_min minlen acc_minlen buffer time st = o)
    (h : o.errflags &&& 0x1f = 0) :
    o.dt.minute_length = emin_ok ∧
    okOrJump o.dt.minute_status ∧ okOrJump o.dt.hour_status ∧
    okOrJump o.dt.mday_status ∧ okOrJump o.dt.wday_status ∧
    okOrJump o.dt.month_status ∧ okOrJump o.dt.year_status := by
  subst ho
  unfold decode_time_core at h ⊢
  dsimp only at h ⊢
  generalize eI : decode_time_init init_min time = rI at h ⊢
  obtain ⟨time1, nt0⟩ := rI
  dsimp only at h ⊢
  generalize eS : check_time_sanity minlen buffer st.dt = rS at h ⊢
  obtain ⟨dtS, sane⟩ := rS
  dsimp only at h ⊢
  generalize eInc :
    increase_old_time init_min minlen acc_minlen dtS.dst_announce st.frac time1
      = rInc at h ⊢
  obtain ⟨inc, time2, frac2⟩ := rInc
  dsimp only at h ⊢
  obtain ⟨hef0, hcalc⟩ := calculate_success init_min _ inc buffer time2 nt0 dtS
    (by split <;> simp) h
  have hsane : sane = true := by
    by_cases hs : sane = true
    · exact hs
    · simp [hs] at hef0
  subst hsane
  have hml := check_time_sanity_ok minlen buffer st.dt (by rw [eS])
  rw [eS] at hml
  dsimp only at hml
  rw [hcalc]
  refine ⟨by simpa [calcSuccessOut] using hml, ?_, ?_, ?_, ?_, ?_, ?_⟩
    <;> simp only [calcSuccessOut]
    <;> exact okOrJump_ite _

/-- Witness for `C2_commit_statuses`: the clean committing minute of
`exBuffer` against the consistent current time `exTimeOk`. -/
theorem C2_commit_statuses_witness :
    ((decode_time_core 0 59 60000 exBuffer exTimeOk initDecodeState).errflags
        &&& 0x1f = 0) ∧
    ((decode_time_core 0 59 60000 exBuffer exTimeOk initDecodeState).dt.minute_length
        = emin_ok ∧
      okOrJump (decode_time_core 0 59 60000 exBuffer exTimeOk
        initDecodeState).dt.minute_status ∧
      okOrJump (decode_time_core 0 59 60000 exBuffer exTimeOk
        initDecodeState).dt.hour_status ∧
      okOrJump (decode_time_core 0 59 60000 exBuffer exTimeOk
        initDecodeState).dt.mday_status ∧
      okOrJump (decode_time_core 0 59 60000 exBuffer exTimeOk
        initDecodeState).dt.wday_status ∧
      okOrJump (decode_time_core 0 59 60000 exBuffer exTimeOk
        initDecodeState).dt.month_status ∧
      okOrJump (decode_time_core 0 59 60000 exBuffer exTimeOk
        initDecodeState).dt.year_status) :=
  ⟨by decide,
   C2_commit_statuses 0 59 60000 exBuffer exTimeOk initDecodeState _ rfl (by decide)⟩

/-- Claim C3, amended: on a settled decoder (`init_min = 0`), when a
minute that passes all checks is applied with a nonzero minute increase,
the freshly decoded field values land in the candidate `newtime`, each
field whose decoded value disagrees with the `add_minute`-incremented
current time gets status `eval_jump` — but, contrary to the claim, the
decoded value IS adopted into the current time (the commit of
`stamp_date_time` ignores `eval_jump` statuses). -/
theorem C3_jump_and_adoption (minlen : Int) (acc_minlen : Nat)
    (buffer : Nat → Nat) (time : Tm) (st : DecodeState) (o : DecodeOut)
    (ho : decode_time_core 0 minlen acc_minlen buffer time st = o)
    (h : o.errflags &&& 0x1f = 0) (hinc : o.increase ≠ 0) :
    (o.newtime.tm_min = (getbcd buffer 45 51 : Int) ∧
     o.newtime.tm_hour = (getbcd buffer 39 44 : Int) ∧
     o.newtime.tm_mday = (getbcd buffer 30 35 : Int) ∧
     o.newtime.tm_mon = (getbcd buffer 25 29 : Int) ∧
     o.newtime.tm_wday = (getbcd buffer 36 38 : Int)) ∧
    ((o.timeInc.tm_min ≠ o.newtime.tm_min → o.dt.minute_status = eval_jump) ∧
     (o.timeInc.tm_hour ≠ o.newtime.tm_hour → o.dt.hour_status = eval_jump) ∧
     (o.timeInc.tm_mday ≠ o.newtime.tm_mday → o.dt.mday_status = eval_jump) ∧
     (o.timeInc.tm_mon ≠ o.newtime.tm_mon → o.dt.month_status = eval_jump) ∧
     (o.timeInc.tm_wday ≠ o.newtime.tm_wday → o.dt.wday_status = eval_jump) ∧
     (o.timeInc.tm_year ≠ o.newtime.tm_year → o.dt.year_status = eval_jump)) ∧
    (o.time.tm_min = o.newtime.tm_min ∧ o.time.tm_hour = o.newtime.tm_hour ∧
     o.time.tm_mday = o.newtime.tm_mday ∧ o.time.tm_mon = o.newtime.tm_mon ∧
     o.time.tm_wday = o.newtime.tm_wday ∧ o.time.tm_year = o.newtime.tm_year) := by
  subst ho
  unfold decode_time_core at h hinc ⊢
  dsimp only at h hinc ⊢
  generalize eI : decode_time_init 0 time = rI at h hinc ⊢
  obtain ⟨time1, nt0⟩ := rI
  dsimp only at h hinc ⊢
  generalize eS : check_time_sanity minlen buffer st.dt = rS at h hinc ⊢
  obtain ⟨dtS, sane⟩ := rS
  dsimp only at h hinc ⊢
  generalize eInc :
    increase_old_time 0 minlen acc_minlen dtS.dst_announce st.frac time1
      = rInc at h hinc ⊢
  obtain ⟨inc, time2, frac2⟩ := rInc
  dsimp only at h hinc ⊢
  obtain ⟨hef0, hcalc⟩ := calculate_success 0 _ inc buffer time2 nt0 dtS
    (by split <;> simp) h
  have hsane : sane = true := by
    by_cases hs : sane = true
    · exact hs
    · simp [hs] at hef0
  subst hsane
  have hml := check_time_sanity_ok minlen buffer st.dt (by rw [eS])
  rw [eS] at hml
  dsimp only at hml
  rw [hcalc]
  refine ⟨⟨?_, ?_, ?_, ?_, ?_⟩, ⟨?_, ?_, ?_, ?_, ?_, ?_⟩, ?_⟩
  · simp [calcSuccessOut, hinc]
  · simp [calcSuccessOut, hinc]
  · simp [calcSuccessOut, hinc]
  · simp [calcSuccessOut, hinc]
  · simp [calcSuccessOut, hinc]
  · intro hne
    simp [calcSuccessOut, hinc, bne_iff_ne] at hne ⊢
    exact hne
  · intro hne
    simp [calcSuccessOut, hinc, bne_iff_ne] at hne ⊢
    exact hne
  · intro hne
    simp [calcSuccessOut, hinc, bne_iff_ne] at hne ⊢
    exact hne
  · intro hne
    simp [calcSuccessOut, hinc, bne_iff_ne] at hne ⊢
    exact hne
  · intro hne
    simp [calcSuccessOut, hinc, bne_iff_ne] at hne ⊢
    exact hne
  · intro hne
    simp [calcSuccessOut, hinc, bne_iff_ne] at hne ⊢
    omega
  · simp [calcSuccessOut, stamp_date_time, hinc, hml]
    split <;> simp

/-- `set_new_state` changes only `cutoff` and `gb_res`. -/
theorem set_new_state_frame (s : FileSt) :
    (set_new_state s).acc_minlen = s.acc_minlen ∧
    (set_new_state s).bit_t = s.bit_t ∧
    (set_new_state s).read_acc_minlen = s.read_acc_minlen ∧
    (set_new_state s).buffer = s.buffer ∧
    (set_new_state s).bitpos = s.bitpos ∧
    (set_new_state s).input = s.input ∧
    (set_new_state s).eof = s.eof := by
  unfold set_new_state
  dsimp only
  split_ifs <;> exact ⟨rfl, rfl, rfl, rfl, rfl, rfl, rfl⟩

/-- `skip_invalid` changes only the stream fields. -/
theorem skip_invalid_frame (u : FileSt) :
    (skip_invalid u).2.acc_minlen = u.acc_minlen ∧
    (skip_invalid u).2.bit_t = u.bit_t ∧
    (skip_invalid u).2.read_acc_minlen = u.read_acc_minlen ∧
    (skip_invalid u).2.buffer = u.buffer ∧
    (skip_invalid u).2.bitpos = u.bitpos ∧
    (skip_invalid u).2.gb = u.gb ∧
    (skip_invalid u).2.dec_bp = u.dec_bp :=
  ⟨rfl, rfl, rfl, rfl, rfl, rfl, rfl⟩

/-- The read-ahead block changes neither `acc_minlen` nor the buffer. -/
theorem gbf_readahead_frame (c : Char) (u : FileSt) :
    (gbf_readahead c u).acc_minlen = u.acc_minlen ∧
    (gbf_readahead c u).buffer = u.buffer := by
  unfold gbf_readahead
  rcases hC : skip_invalid u with ⟨inch2, s2⟩
  have h2 : (skip_invalid u).2 = s2 := by rw [hC]
  have hacc : s2.acc_minlen = u.acc_minlen := by rw [← h2]; rfl
  have hbuf : s2.buffer = u.buffer := by rw [← h2]; rfl
  dsimp only
  cases inch2 <;> split_ifs <;> simp [hacc, hbuf]

/-- On any character other than an `a` record, the switch of
`get_bit_file` keeps `acc_minlen`, keeps `read_acc_minlen`, and sets
`bit.t` to at most 1500 (or leaves it alone on the `default` label). -/
theorem gbf_case_no_a (c : Char) (hc : c ≠ 'a') (s : FileSt) :
    (gbf_case c s).acc_minlen = s.acc_minlen ∧
    (gbf_case c s).read_acc_minlen = s.read_acc_minlen ∧
    (gbf_case c s).bit_t ≤ max s.bit_t 1500 := by
  unfold gbf_case
  split_ifs <;> simp_all

/-- The switch of `get_bit_file` writes the consumed digit to
`buffer[bitpos]` and nothing else; for non-digits it leaves the whole
buffer alone. -/
theorem gbf_case_buffer (c : Char) (s : FileSt) :
    (('0' ≤ c ∧ c ≤ '4') →
      (gbf_case c s).buffer
        = fun i => if i = s.bitpos.toNat then c.toNat - 48 else s.buffer i) ∧
    (¬ ('0' ≤ c ∧ c ≤ '4') → (gbf_case c s).buffer = s.buffer) := by
  unfold gbf_case
  by_cases hdg : ('0' ≤ c && c ≤ '4') = true
  · have hdg2 : '0' ≤ c ∧ c ≤ '4' := by simpa [Bool.and_eq_true] using hdg
    simp [hdg, hdg2]
  · have hdg2 : ¬ ('0' ≤ c ∧ c ≤ '4') := by
      simpa [Bool.and_eq_true] using hdg
    simp only [hdg]
    refine ⟨fun hcon => absurd hcon hdg2, fun _ => ?_⟩
    split_ifs <;> simp_all
    split <;> rfl

/-- Claim C6: the timeout classification of `collect_pulses` is
unreachable.  Inside the sampling loop `bit.t < hw.freq` (the loop
bound), and the guard at lines 366-370 has just ensured
`bit.realfreq > hw.freq * 500000`, so `bit.t > bit.realfreq * 1500000`
can never hold: no realizable input produces the
receive/transmit/random timeout classification — the post-loop path at
lines 415-423 (always `random`) is the only overlong-second handling. -/
theorem C6_timeout_unreachable (t : Nat) (tlow : Int) (hwfreq : Nat)
    (realfreq : Int) (hloop : t < hwfreq)
    (hguard : (hwfreq : Int) * 500000 < realfreq) :
    collect_pulses_timeout t tlow hwfreq realfreq = none := by
  have hno : ¬ ((t : Int) > realfreq * 1500000) := by omega
  simp [collect_pulses_timeout, hno]

/-- Witness for `C6_timeout_unreachable`: a 10 Hz configuration at the
nominal `realfreq` of `10 * 10^6`. -/
theorem C6_timeout_unreachable_witness :
    ((5 : Nat) < 10 ∧ ((10 : Nat) : Int) * 500000 < 10000000) ∧
    collect_pulses_timeout 5 (-1) 10 10000000 = none :=
  ⟨⟨by decide, by decide⟩,
   C6_timeout_unreachable 5 (-1) 10 10000000 (by decide) (by decide)⟩

/-- Claim C7: under the framing invariant — `bitpos ∈ [0, 60]`, and a
pending `dec_bp` roll-back only at `bitpos ≥ 1` (which is how
`get_bit_file` sets `dec_bp = 1`: only when `bitpos > 0`, and it never
moves `bitpos`) — `next_bit` keeps `bitpos` in [0, 60]: after a minute
or late marker `bitpos` is 1, on reaching `BUFLEN` = 61 the marker
becomes `too_long` and `bitpos` resets to 0, and the roll-back never
drives `bitpos` below 0. -/
theorem C7_next_bit_bitpos (s : FileSt) (h0 : 0 ≤ s.bitpos) (h60 : s.bitpos ≤ 60)
    (hdec : s.dec_bp = 1 → 1 ≤ s.bitpos) :
    (0 ≤ (next_bit s).bitpos ∧ (next_bit s).bitpos ≤ 60) ∧
    ((s.gb.marker = emark_minute ∨ s.gb.marker = emark_late) →
      (next_bit s).bitpos = 1) ∧
    (s.gb.marker ≠ emark_minute → s.gb.marker ≠ emark_late →
      s.gb.skip = false →
      (if s.dec_bp = 1 then s.bitpos - 1 else s.bitpos) = 60 →
      (next_bit s).gb.marker = emark_toolong ∧ (next_bit s).bitpos = 0) := by
  obtain ⟨bp, db, buf, acc, bt, co, ⟨mk, bv, hw, bio, sk, dn⟩, ra, inp, eo⟩ := s
  dsimp only at h0 h60 hdec ⊢
  unfold next_bit BUFLEN
  dsimp only
  by_cases hd : db = 1 <;> cases mk <;> cases sk <;>
    simp_all <;> split_ifs <;> simp_all <;> omega

/-- Witness for `C7_next_bit_bitpos` at the concrete state `exFileSt`. -/
theorem C7_next_bit_bitpos_witness :
    (0 ≤ exFileSt.bitpos ∧ exFileSt.bitpos ≤ 60 ∧
      (exFileSt.dec_bp = 1 → 1 ≤ exFileSt.bitpos)) ∧
    (0 ≤ (next_bit exFileSt).bitpos ∧ (next_bit exFileSt).bitpos ≤ 60) :=
  ⟨⟨by decide, by decide, by decide⟩,
   (C7_next_bit_bitpos exFileSt (by decide) (by decide) (by decide)).1⟩

/-- Claim C8 fails on `a` records: consuming the log record `a5` in
mid-minute (the marker is `none` before and after, no minute or late
marker is being processed) overwrites `acc_minlen = 2000` with the
logged value 5 — a decrease of `acc_minlen` between two processed minute
markers. -/
theorem C8_acc_minlen_counterexample :
    exFileSt.acc_minlen = 2000 ∧
    exFileSt.gb.marker = emark_none ∧
    (get_bit_file exFileSt).gb.marker = emark_none ∧
    (get_bit_file exFileSt).acc_minlen = 5 :=
  ⟨rfl, rfl, rfl, rfl⟩

/-- Claim C8, amended: apart from `a` records — which overwrite
`acc_minlen` with the logged value and can therefore decrease it
mid-minute (see the counterexample) — `get_bit_file` never decreases
`acc_minlen` (absent 32-bit wrap-around: the `bit.t` it adds is at most
1500), and `check_handle_new_minute` resets `acc_minlen` to zero exactly
when it processes a minute or late marker and leaves it unchanged
otherwise. -/
theorem C8_acc_minlen_monotone :
    (∀ s : FileSt, gbf_consumed s ≠ some 'a' → s.bit_t ≤ 1500 →
      s.acc_minlen + 1500 < 2 ^ 32 →
      s.acc_minlen ≤ (get_bit_file s).acc_minlen) ∧
    (∀ (marker : eGB_marker) (minlen : Int) (was_toolong : Bool)
        (buffer : Nat → Nat) (s : MLState),
      (¬ ((marker = emark_minute ∨ marker = emark_late) ∧ was_toolong = false) →
        (check_handle_new_minute marker minlen was_toolong buffer s).acc_minlen
          = s.acc_minlen) ∧
      (((marker = emark_minute ∨ marker = emark_late) ∧ was_toolong = false) →
        (check_handle_new_minute marker minlen was_toolong buffer s).acc_minlen
          = 0)) := by
  constructor
  · intro s hna hbt hacc
    unfold gbf_consumed at hna
    unfold get_bit_file
    dsimp only
    rcases hC : skip_invalid (set_new_state s) with ⟨inch, s1⟩
    have h2 : (skip_invalid (set_new_state s)).2 = s1 := by rw [hC]
    have h1acc : s1.acc_minlen = s.acc_minlen := by
      rw [← h2, (skip_invalid_frame _).1, (set_new_state_frame s).1]
    have h1bt : s1.bit_t = s.bit_t := by
      rw [← h2, (skip_invalid_frame _).2.1, (set_new_state_frame s).2.1]
    rw [hC] at hna
    dsimp only at hna ⊢
    cases inch with
    | none =>
      dsimp only
      omega
    | some c =>
      have hc : c ≠ 'a' := fun hh => hna (by rw [hh])
      rw [(gbf_readahead_frame c _).1]
      obtain ⟨g1, g2, g3⟩ := gbf_case_no_a c hc s1
      by_cases hra : (gbf_case c s1).read_acc_minlen = true
      · simp [hra, g1, h1acc]
      · have hbt2 : (gbf_case c s1).bit_t ≤ 1500 := by
          refine le_trans g3 ?_
          rw [h1bt]
          omega
        have hra2 : (gbf_case c s1).read_acc_minlen = false := by
          simpa using hra
        simp [hra2]
        omega
  · intro marker minlen was_toolong buffer s
    constructor
    · intro hniet
      have hcond :
          ¬ (((marker == emark_minute || marker == emark_late) && !was_toolong)
            = true) := by
        simp only [Bool.and_eq_true, Bool.or_eq_true, beq_iff_eq,
          Bool.not_eq_true']
        intro hcc
        exact hniet ⟨hcc.1, hcc.2⟩
      simp [check_handle_new_minute, hcond]
    · intro hyes
      have hcond :
          ((marker == emark_minute || marker == emark_late) && !was_toolong)
            = true := by
        simp only [Bool.and_eq_true, Bool.or_eq_true, beq_iff_eq,
          Bool.not_eq_true']
        exact ⟨hyes.1, hyes.2⟩
      have hm : (marker == emark_minute || marker == emark_late) = true := by
        simp only [Bool.or_eq_true, beq_iff_eq]
        exact hyes.1
      unfold check_handle_new_minute
      rw [if_pos hcond]
      simp only [hm]
      simp only [if_true]
      split_ifs <;> rfl

/-- Witness for `C8_acc_minlen_monotone`: a digit-consuming call from
`exFileSt` with the `a` record stripped (first conjunct), and a skipped
`check_handle_new_minute` with no marker (second conjunct). -/
theorem C8_acc_minlen_monotone_witness :
    ((gbf_consumed { exFileSt with input := "30".toList } ≠ some 'a' ∧
      ({ exFileSt with input := "30".toList } : FileSt).bit_t ≤ 1500 ∧
      ({ exFileSt with input := "30".toList } : FileSt).acc_minlen + 1500 < 2 ^ 32) ∧
      ¬ ((emark_none = emark_minute ∨ emark_none = emark_late) ∧ false = false)) ∧
    (({ exFileSt with input := "30".toList } : FileSt).acc_minlen ≤
      (get_bit_file { exFileSt with input := "30".toList }).acc_minlen ∧
     (check_handle_new_minute emark_none 59 false exBuffer
        ⟨exTime, 0, 1234, initDecodeState⟩).acc_minlen = 1234) :=
  ⟨⟨⟨by decide, by decide, by decide⟩, by decide⟩,
   ⟨(C8_acc_minlen_monotone.1 { exFileSt with input := "30".toList }
       (by decide) (by decide) (by decide)),
    (C8_acc_minlen_monotone.2 emark_none 59 false exBuffer
       ⟨exTime, 0, 1234, initDecodeState⟩).1 (by decide)⟩⟩

/-- Claim C9: a `get_bit_file` call modifies at most the bit-buffer
entry at the current `bitpos`: when the consumed character is a digit
'0'..'4' it writes exactly that digit (`inch - '0'`) there and leaves
every other entry unchanged, and for every other consumed character
(hardware codes, `_`, `*`, `a` records, `5`, newline, EOF) the whole
buffer is left unchanged. -/
theorem C9_get_bit_file_buffer (s : FileSt) :
    (∀ c : Char, gbf_consumed s = some c →
      (('0' ≤ c ∧ c ≤ '4') →
        (get_bit_file s).buffer s.bitpos.toNat = c.toNat - 48 ∧
        ∀ i : Nat, i ≠ s.bitpos.toNat → (get_bit_file s).buffer i = s.buffer i) ∧
      (¬ ('0' ≤ c ∧ c ≤ '4') → (get_bit_file s).buffer = s.buffer)) ∧
    (gbf_consumed s = none → (get_bit_file s).buffer = s.buffer) := by
  unfold gbf_consumed get_bit_file
  dsimp only
  rcases hC : skip_invalid (set_new_state s) with ⟨inch, s1⟩
  have h2 : (skip_invalid (set_new_state s)).2 = s1 := by rw [hC]
  have h1buf : s1.buffer = s.buffer := by
    rw [← h2, (skip_invalid_frame _).2.2.2.1, (set_new_state_frame s).2.2.2.1]
  have h1bp : s1.bitpos = s.bitpos := by
    rw [← h2, (skip_invalid_frame _).2.2.2.2.1, (set_new_state_frame s).2.2.2.2.1]
  have haccif : ∀ u : FileSt,
      ((if (!u.read_acc_minlen) = true then
          { u with acc_minlen := (u.acc_minlen + u.bit_t) % 2 ^ 32 }
        else u) : FileSt).buffer = u.buffer := by
    intro u
    split_ifs <;> rfl
  dsimp only
  constructor
  · intro c hcx
    subst hcx
    rw [(gbf_readahead_frame c _).2, haccif]
    obtain ⟨d1, d2⟩ := gbf_case_buffer c s1
    constructor
    · intro hdg
      rw [d1 hdg, h1bp, h1buf]
      constructor
      · simp
      · intro i hi
        simp [hi]
    · intro hdg
      rw [d2 hdg, h1buf]
  · intro hcx
    subst hcx
    exact h1buf

/-- Witness for `C9_get_bit_file_buffer`: reading the digit `3` at
`bitpos` 3 writes 3 there and leaves entry 7 untouched. -/
theorem C9_get_bit_file_buffer_witness :
    (gbf_consumed { exFileSt with input := "30".toList } = some '3' ∧
      ('0' ≤ '3' ∧ '3' ≤ '4')) ∧
    ((get_bit_file { exFileSt with input := "30".toList }).buffer
        ({ exFileSt with input := "30".toList } : FileSt).bitpos.toNat
      = '3'.toNat - 48 ∧
     ∀ i : Nat, i ≠ ({ exFileSt with input := "30".toList } : FileSt).bitpos.toNat →
       (get_bit_file { exFileSt with input := "30".toList }).buffer i
         = ({ exFileSt with input := "30".toList } : FileSt).buffer i) :=
  ⟨⟨by decide, by decide⟩,
   ((C9_get_bit_file_buffer { exFileSt with input := "30".toList }).1 '3'
      (by decide)).1 (by decide)⟩

/-- Witness for `C3_jump_and_adoption`: the run of
`C3_jump_value_adopted_counterexample` satisfies its hypotheses, and the
theorem applied there yields the `eval_jump` minute status. -/

theorem C3_jump_and_adoption_witness :
    ((decode_time_core 0 59 60000 exBuffer exTime initDecodeState).errflags
        &&& 0x1f = 0 ∧
     (decode_time_core 0 59 60000 exBuffer exTime initDecodeState).increase ≠ 0 ∧
     (decode_time_core 0 59 60000 exBuffer exTime initDecodeState).timeInc.tm_min
       ≠ (decode_time_core 0 59 60000 exBuffer exTime initDecodeState).newtime.tm_min) ∧
    (decode_time_core 0 59 60000 exBuffer exTime initDecodeState).dt.minute_status
      = eval_jump :=
  ⟨⟨by decide, by decide, by decide⟩,
   (C3_jump_and_adoption 59 60000 exBuffer exTime initDecodeState _ rfl
      (by decide) (by decide)).2.1.1 (by decide)⟩

end Nplpi
